import Mathlib

/-!
Shallow embedding of the `gaustakehome` backend (FastAPI stock-analysis service)
and verification of its specification claims.

Source files embedded:
* `src/backend/app.py` — `calculate_risk_score`, `analyze_ticker`
* `src/backend/data_fetcher.py` — `fetch_yfinance_data`, `fetch_google_news`,
  `fetch_reuters_news`, `fetch_twitter_mentions`
* `src/backend/llm_prompts.py` — `generate_catalyst_thesis`, `generate_risk_thesis`

Modelling conventions:
* Python floats are modelled as `ℚ` (exact rationals); decimal thresholds such
  as `2.5` are written `mkRat 5 2` so that all comparisons kernel-reduce.
* Python `None` / missing dict keys are `Option`.
* Python exceptions are modelled as `Except` / `Option` results; a function
  body that cannot raise is a total Lean function.
* External effects (HTTP fetches, feed parsing, the LLM completion call, the
  date parser from `dateutil`) are passed in as explicit oracle arguments, so
  each embedded function is a pure function of the data those effects returned.
-/

/-! ## Python-level primitives -/

/-- Python truthiness of an optional float: `None` and `0.0` are falsy.
Mirrors `if x:` guards applied to optional numeric fields. -/
def pyTruthy (x : Option ℚ) : Bool :=
  match x with
  | none => false
  | some v => v != 0

/-- Lexicographic `≤` on char lists by code point; Python's string `<=`. -/
def lexLe : List Char → List Char → Bool
  | [], _ => true
  | _ :: _, [] => false
  | a :: as, b :: bs => if a = b then lexLe as bs else decide (a.toNat < b.toNat)

/-- Python string comparison `s <= t` (code-point lexicographic). -/
def strLe (s t : String) : Bool := lexLe s.data t.data

/-- Python `str.strip()` on a char list (strip leading/trailing whitespace). -/
def pyStrip (l : List Char) : List Char :=
  ((l.dropWhile Char.isWhitespace).reverse.dropWhile Char.isWhitespace).reverse

/-- Python `str.lstrip(chars)`: drop leading chars belonging to `set`. -/
def pyLstrip (set : List Char) (l : List Char) : List Char :=
  l.dropWhile (fun c => set.contains c)

/-- Python `int(...)` on a string of decimal digits. -/
def digitsToNat (ds : List Char) : ℕ :=
  ds.foldl (fun n c => 10 * n + (c.toNat - '0'.toNat)) 0

/-- Does the char list `l` start with the segment `seg`? -/
def startsWithSeg : List Char → List Char → Bool
  | [], _ => true
  | _ :: _, [] => false
  | a :: as, b :: bs => a == b && startsWithSeg as bs

/-- Does the char list contain `seg` as a contiguous segment?  (Python `in`.) -/
def containsSeg (seg : List Char) : List Char → Bool
  | [] => seg.isEmpty
  | b :: bs => startsWithSeg seg (b :: bs) || containsSeg seg bs

/-- Python `sub in s` (substring test) after both sides are lowercased;
mirrors `ticker_lower in title_lower` etc. in `fetch_reuters_news`. -/
def pyInLower (sub s : String) : Bool :=
  containsSeg (sub.data.map Char.toLower) (s.data.map Char.toLower)

/-! ## Risk scorer (`app.py`, `calculate_risk_score`) -/

/-- The dict returned by `fetch_yfinance_data` (`data_fetcher.py` lines 42-51).
Valuation fields are optional; absence models a missing/`None` dict value. -/
structure YfinanceData where
  price_change_pct : ℚ
  current_price : ℚ
  forward_pe : Option ℚ
  trailing_pe : Option ℚ
  price_to_book : Option ℚ
  beta : Option ℚ
  market_cap : Option ℚ
  company_name : String
deriving DecidableEq

/-- `is_mega_cap = market_cap and market_cap > 500_000_000_000` (app.py line 42).
Python's `and` makes the whole expression falsy when `market_cap` is `None`
or `0.0`; a cap of `0.0` also fails the comparison, so truthiness folds in. -/
def is_mega_cap (market_cap : Option ℚ) : Bool :=
  pyTruthy market_cap && decide ((market_cap.getD 0) > 500000000000)

/-- Factor 1 (app.py lines 39-63): forward P/E adjustment.  `if forward_pe:`
is Python truthiness, so a present value of `0.0` contributes nothing. -/
def forwardPeAdj (forward_pe market_cap : Option ℚ) : ℤ :=
  match forward_pe with
  | none => 0
  | some pe =>
    if pe = 0 then 0
    else if is_mega_cap market_cap then
      if pe > 100 then 3
      else if pe > 70 then 2
      else if pe > 45 then 1
      else if pe < 20 then -1
      else 0
    else
      if pe > 80 then 3
      else if pe > 50 then 2
      else if pe > 35 then 1
      else if pe < 15 then -1
      else 0

/-- Factor 2 (app.py lines 65-71): price-to-book adjustment. -/
def ptbAdj (price_to_book : Option ℚ) : ℤ :=
  match price_to_book with
  | none => 0
  | some pb =>
    if pb = 0 then 0
    else if pb > 40 then 2
    else if pb > 25 then 1
    else 0

/-- Factor 3 (app.py lines 73-81): beta adjustment.  `if beta:` is Python
truthiness, so a present beta of `0.0` contributes nothing even though
`0.0 < 0.8`. -/
def betaAdj (beta : Option ℚ) : ℤ :=
  match beta with
  | none => 0
  | some b =>
    if b = 0 then 0
    else if b > mkRat 5 2 then 2
    else if b > 2 then 1
    else if b < mkRat 4 5 then -1
    else 0

/-- Factor 4 (app.py lines 83-89): recent price volatility adjustment. -/
def volAdj (price_change_pct : ℚ) : ℤ :=
  if |price_change_pct| > 20 then 2
  else if |price_change_pct| > 15 then 1
  else if |price_change_pct| < 3 then -1
  else 0

/-- Factor 5 (app.py lines 91-102): market cap tier adjustment. -/
def mcapAdj (market_cap : Option ℚ) : ℤ :=
  match market_cap with
  | none => 0
  | some mc =>
    if mc = 0 then 0
    else if mc < 1000000000 then 3
    else if mc < 5000000000 then 2
    else if mc < 20000000000 then 1
    else if mc > 500000000000 then -2
    else if mc > 100000000000 then -1
    else 0

/-- `calculate_risk_score` (app.py lines 29-105): baseline 3, the five additive
factor blocks, then `max(1, min(10, risk_score))`. -/
def calculate_risk_score (d : YfinanceData) (price_change_pct : ℚ) : ℤ :=
  max 1 (min 10
    (3 + forwardPeAdj d.forward_pe d.market_cap
       + ptbAdj d.price_to_book
       + betaAdj d.beta
       + volAdj price_change_pct
       + mcapAdj d.market_cap))

/-- A `YfinanceData` with every optional field absent (used by scenarios). -/
def emptyYf : YfinanceData :=
  { price_change_pct := 0, current_price := 0, forward_pe := none,
    trailing_pe := none, price_to_book := none, beta := none,
    market_cap := none, company_name := "ACME" }

/-! ## News and social data model -/

/-- A news article dict as built by `fetch_google_news` / `fetch_reuters_news`
(`data_fetcher.py` lines 85-90 and 135-140): `published` is the ISO-8601
string `published.isoformat()`. -/
structure Article where
  title : String
  link : String
  published : String
  source : String
deriving DecidableEq

/-- A tweet dict as built by `fetch_twitter_mentions`
(`data_fetcher.py` lines 180-187). -/
structure Tweet where
  text : String
  created_at : String
  likes : ℕ
  retweets : ℕ
  author_id : String
  tweet_id : String
deriving DecidableEq

/-- Engagement score used as the sort key at `data_fetcher.py` line 189:
`t["likes"] + t["retweets"]`. -/
def engagement (t : Tweet) : ℕ := t.likes + t.retweets

/-- Descending-by-`published`-string order used by
`all_news.sort(key=lambda x: x['published'], reverse=True)` (app.py line 173).
Python's sort is stable; `List.insertionSort` with this relation places an
earlier element before a later one whenever their keys are equal, which is
exactly Python's stable descending sort. -/
def newsRel (x y : Article) : Prop := strLe y.published x.published = true

instance : DecidableRel newsRel := fun _ _ => instDecidableEqBool _ _

/-- `all_news = google_news + reuters_news` then stable sort descending by the
`published` string (app.py lines 172-173). -/
def mergeNews (google reuters : List Article) : List Article :=
  List.insertionSort newsRel (google ++ reuters)

/-- Descending-by-engagement order used by
`tweets.sort(key=lambda t: t["likes"] + t["retweets"], reverse=True)`
(`data_fetcher.py` line 189), stable as above. -/
def tweetRel (x y : Tweet) : Prop := engagement y ≤ engagement x

instance : DecidableRel tweetRel := fun _ _ => Nat.decLe _ _

/-- The ranking step of `fetch_twitter_mentions`. -/
def rankTweets (posts : List Tweet) : List Tweet :=
  List.insertionSort tweetRel posts

/-- `max(10, min(max_results, 100))` — the page size requested from the
search API (`data_fetcher.py` line 162). -/
def twitterPageSize (max_results : ℕ) : ℕ :=
  max 10 (min max_results 100)

/-- `fetch_twitter_mentions` (`data_fetcher.py` lines 152-195) given the list
of posts the API returned (`none` models a non-200 status, a network failure,
or a response without a `"data"` key — all of which yield `[]`).  When posts
are present they are ranked by engagement (stable descending) and truncated
to the originally requested count: `tweets[:max_results]`. -/
def fetch_twitter_mentions (max_results : ℕ) (apiPosts : Option (List Tweet)) :
    List Tweet :=
  match apiPosts with
  | none => []
  | some posts => (rankTweets posts).take max_results

/-! ## Catalyst-thesis parsing (`llm_prompts.py`, `generate_catalyst_thesis`) -/

/-- A `{title, link, source}` source reference attached to a bullet
(`llm_prompts.py` lines 107-111). -/
structure Source where
  title : String
  link : String
  source : String
deriving DecidableEq

/-- A catalyst bullet `{text, sources}` (`llm_prompts.py` lines 113-116). -/
structure Bullet where
  text : String
  sources : List Source
deriving DecidableEq

mutual

/-- `re.findall(r'\[(\d+)\]', s)` followed by `int(...)` on each match,
written as a two-state scanner: `findCitations` looks for `[`;
`citationDigits` is inside a bracket having read digit value `acc` (`seen`
records whether at least one digit was read).  On a failed bracket the regex
engine restarts right after the `[`; since the skipped characters are all
digits (which cannot start a match) the scanner may resume at the failing
character, which reproduces the regex's non-overlapping left-to-right
matches. -/
def findCitations : List Char → List ℕ
  | [] => []
  | c :: rest => if c = '[' then citationDigits rest 0 false else findCitations rest

def citationDigits : List Char → ℕ → Bool → List ℕ
  | [], _, _ => []
  | c :: rest, acc, seen =>
    if c.isDigit then citationDigits rest (10 * acc + (c.toNat - '0'.toNat)) true
    else if c = ']' && seen then acc :: findCitations rest
    else if c = '[' then citationDigits rest 0 false
    else findCitations rest

end

mutual

/-- `re.sub(r'\[\d+\]', '', s)`: delete every `[digits]` segment, scanning
exactly as `findCitations` does; `pending` holds the `[` and digits consumed
by a bracket attempt, flushed to the output if the attempt fails. -/
def removeCitations : List Char → List Char
  | [] => []
  | c :: rest => if c = '[' then removeDigits rest ['['] false else c :: removeCitations rest

def removeDigits : List Char → List Char → Bool → List Char
  | [], pending, _ => pending
  | c :: rest, pending, seen =>
    if c.isDigit then removeDigits rest (pending ++ [c]) true
    else if c = ']' && seen then removeCitations rest
    else if c = '[' then pending ++ removeDigits rest ['['] false
    else pending ++ c :: removeCitations rest

end

/-- Placeholder article; never reachable under the in-bounds guard of
`buildSources` (mirrors that `news_articles[idx]` is only evaluated there). -/
def defaultArticle : Article := ⟨"", "", "", ""⟩

/-- `{"title": ..., "link": ..., "source": ...}` from an article. -/
def sourceOf (a : Article) : Source := ⟨a.title, a.link, a.source⟩

/-- The citation-resolution loop of `generate_catalyst_thesis`
(`llm_prompts.py` lines 102-111): for each citation `n`,
`idx = int(n) - 1` (computed in `ℤ`, as Python ints are signed) and the
source is appended only when `0 <= idx < len(news_articles[:10])`. -/
def buildSources (arts : List Article) : List ℕ → List Source
  | [] => []
  | n :: ns =>
    let idx : ℤ := (n : ℤ) - 1
    if 0 ≤ idx ∧ idx < ((arts.take 10).length : ℤ) then
      sourceOf (arts.getD idx.toNat defaultArticle) :: buildSources arts ns
    else
      buildSources arts ns

/-- Is a stripped line kept by the bullet filter
(`line and (line.startswith("-") or line.startswith("•") or line[0].isdigit())`,
`llm_prompts.py` line 92)? -/
def isKeptLine (line : List Char) : Bool :=
  match line with
  | [] => false
  | c :: _ => c == '-' || c == '•' || c.isDigit

/-- `line.lstrip("-•").lstrip("0123456789.").strip()`
(`llm_prompts.py` line 93). -/
def cleanLine (line : List Char) : List Char :=
  pyStrip (pyLstrip ['0','1','2','3','4','5','6','7','8','9','.']
    (pyLstrip ['-','•'] line))

/-- One iteration of the response-parsing loop of `generate_catalyst_thesis`
(`llm_prompts.py` lines 90-116) on a raw line: strip, keep-filter, clean,
extract citations, remove them from the text, resolve sources.  Returns
`none` when the line contributes no bullet. -/
def processCatalystLine (arts : List Article) (raw : List Char) : Option Bullet :=
  let line := pyStrip raw
  if isKeptLine line then
    let clean := cleanLine line
    if clean.isEmpty then none
    else some
      { text := ⟨pyStrip (removeCitations clean)⟩
        sources := buildSources arts (findCitations clean) }
  else none

/-- Parsing of the whole model response in `generate_catalyst_thesis`:
`thesis_text = response.strip()` then `for line in thesis_text.split("\n")`. -/
def parseCatalystResponse (arts : List Article) (response : String) : List Bullet :=
  ((pyStrip response.data).splitOn '\n').filterMap (processCatalystLine arts)

/-- `generate_catalyst_thesis` (`llm_prompts.py` lines 17-122), abstracted
over the completion capability: `completion` is the text the LLM call
returned, or `.error e` when the call raised with message `str(e)`.  The
`except` block (lines 120-122) turns any failure into a single error bullet
with no sources. -/
def generate_catalyst_thesis (arts : List Article)
    (completion : Except String String) : List Bullet :=
  match completion with
  | .error e => [{ text := "Error generating analysis: " ++ e, sources := [] }]
  | .ok response => parseCatalystResponse arts response

/-- One iteration of the response-parsing loop of `generate_risk_thesis`
(`llm_prompts.py` lines 187-192): same keep/clean rule, no citations. -/
def processRiskLine (raw : List Char) : Option String :=
  let line := pyStrip raw
  if isKeptLine line then
    let clean := cleanLine line
    if clean.isEmpty then none else some ⟨clean⟩
  else none

/-- Response parsing of `generate_risk_thesis`. -/
def parseRiskResponse (response : String) : List String :=
  ((pyStrip response.data).splitOn '\n').filterMap processRiskLine

/-- `generate_risk_thesis` (`llm_prompts.py` lines 125-198), abstracted over
the completion capability; the `except` block (lines 196-198) returns a
single explanatory string bullet. -/
def generate_risk_thesis (completion : Except String String) : List String :=
  match completion with
  | .error e => ["Error generating analysis: " ++ e]
  | .ok response => parseRiskResponse response

/-! ## News fetchers (`data_fetcher.py`) -/

/-- A raw feed entry as seen by `feedparser`: `published` is the raw date
string when the `published` attribute exists; `description` models
`entry.get('description', '')`; `sourceTitle` models
`entry.get('source', {}).get('title', 'Unknown')`. -/
structure FeedEntry where
  title : String
  description : Option String
  published : Option String
  link : String
  sourceTitle : Option String
deriving DecidableEq

/-- `fetch_google_news` (`data_fetcher.py` lines 57-99) from the entries the
feed returned.  `dateParse` is the `dateutil` parser oracle (`none` models it
raising; timezone-naive results are already normalized to UTC inside the
oracle, since the code does that before every use); `fmt` is
`datetime.isoformat`; `cutoff` is `datetime.now(utc) - timedelta(days=days)`.
The per-entry `try/except ... continue` (lines 72-93) skips exactly the
failing entry. -/
def fetch_google_news (dateParse : String → Option ℤ) (fmt : ℤ → String)
    (cutoff : ℤ) : List FeedEntry → List Article
  | [] => []
  | e :: es =>
    match e.published with
    | none => fetch_google_news dateParse fmt cutoff es
    | some s =>
      match dateParse s with
      | none => fetch_google_news dateParse fmt cutoff es
      | some d =>
        if d < cutoff then fetch_google_news dateParse fmt cutoff es
        else { title := e.title, link := e.link, published := fmt d,
               source := e.sourceTitle.getD "Unknown" } ::
             fetch_google_news dateParse fmt cutoff es

/-- The ticker/company filter of `fetch_reuters_news`
(`data_fetcher.py` lines 120-126). -/
def entryMatches (ticker company : String) (e : FeedEntry) : Bool :=
  pyInLower ticker e.title || pyInLower ticker (e.description.getD "") ||
  pyInLower company e.title || pyInLower company (e.description.getD "")

/-- The body of the per-feed loop of `fetch_reuters_news`
(`data_fetcher.py` lines 115-143).  `acc` is `all_articles`, shared across
feeds.  A `date_parser.parse` failure raises out of the entry loop into the
per-feed `except` (line 141), so the entries of the same feed that were
already appended stay in `acc` and the remaining entries of that feed are
dropped. -/
def processReutersFeed (dateParse : String → Option ℤ) (fmt : ℤ → String)
    (ticker company : String) : List FeedEntry → List Article → List Article
  | [], acc => acc
  | e :: es, acc =>
    if entryMatches ticker company e then
      match e.published with
      | none => processReutersFeed dateParse fmt ticker company es acc
      | some s =>
        match dateParse s with
        | none => acc
        | some d =>
          processReutersFeed dateParse fmt ticker company es
            (acc ++ [{ title := e.title, link := e.link, published := fmt d,
                       source := "Reuters" }])
    else processReutersFeed dateParse fmt ticker company es acc

/-- `fetch_reuters_news` (`data_fetcher.py` lines 102-149) over the fixed
list of feeds; a feed given as `none` models `feedparser.parse` itself
failing for that URL (caught by the per-feed `except`, contributing
nothing). -/
def fetch_reuters_news (dateParse : String → Option ℤ) (fmt : ℤ → String)
    (ticker company : String) (feeds : List (Option (List FeedEntry))) :
    List Article :=
  feeds.foldl
    (fun acc f =>
      match f with
      | none => acc
      | some entries => processReutersFeed dateParse fmt ticker company entries acc)
    []

/-- Spec-side definition (refinement comparison only), following the spec's
words "sorted descending by publish timestamp" / "the chronological
instants": the instant denoted by an ISO-8601 string of the exact shape
`YYYY-MM-DDTHH:MM:SS±hh:mm`, as produced by `datetime.isoformat()` on an
aware datetime.  The civil date is encoded as `y*372 + m*31 + d`, which is
strictly monotone in calendar order for valid dates, so comparisons of this
value agree with chronological order; the UTC offset is subtracted, so equal
instants written with different offsets get equal values. -/
def specChronInstant (s : String) : ℤ :=
  let l := s.data
  let dig : ℕ → ℤ := fun i => ((l.getD i '0').toNat : ℤ) - ('0'.toNat : ℤ)
  let year := 1000 * dig 0 + 100 * dig 1 + 10 * dig 2 + dig 3
  let month := 10 * dig 5 + dig 6
  let day := 10 * dig 8 + dig 9
  let hour := 10 * dig 11 + dig 12
  let minute := 10 * dig 14 + dig 15
  let second := 10 * dig 17 + dig 18
  let sign : ℤ := if l.getD 19 ' ' = '-' then -1 else 1
  let offH := 10 * dig 20 + dig 21
  let offM := 10 * dig 23 + dig 24
  (year * 372 + month * 31 + day) * 86400 + hour * 3600 + minute * 60 + second
    - sign * (offH * 3600 + offM * 60)

/-! ## Quote fetcher and orchestrator (`data_fetcher.py`, `app.py`) -/

/-- The `info` dict fields read by `fetch_yfinance_data`
(`data_fetcher.py` lines 45-50). -/
structure YfInfo where
  forwardPE : Option ℚ
  trailingPE : Option ℚ
  priceToBook : Option ℚ
  beta : Option ℚ
  marketCap : Option ℚ
  longName : Option String
deriving DecidableEq

/-- The exception classes that can escape `fetch_yfinance_data`: a Python
`ValueError` (raised at `data_fetcher.py` line 36 for an empty history) or
any other exception re-raised by the `except`/`raise` at lines 52-54. -/
inductive FetchError where
  | valueError (msg : String)
  | other (msg : String)
deriving DecidableEq

/-- Ideal-rational model of Python's banker's rounding `round(x)` (ties go
to the even integer). -/
def roundHalfEven (x : ℚ) : ℤ :=
  let f := ⌊x⌋
  let r := x - f
  if r < mkRat 1 2 then f
  else if r > mkRat 1 2 then f + 1
  else if Even f then f else f + 1

/-- Python `round(x, 2)` on the ideal rational value. -/
def pyRound2 (x : ℚ) : ℚ := (roundHalfEven (x * 100) : ℚ) / 100

/-- `fetch_yfinance_data` (`data_fetcher.py` lines 23-54).  `hist` is the
close-price series `hist['Close']` the quote API returned (`.error m` models
the upstream call itself raising with message `m`, re-raised unchanged).  An
empty history raises `ValueError(f"No historical data found for {ticker}")`.
(Note: `first_close = 0` would make Python raise `ZeroDivisionError`; real
close prices are positive, and `ℚ` division totalizes that corner as 0.) -/
def fetch_yfinance_data (ticker : String) (hist : Except String (List ℚ))
    (info : YfInfo) : Except FetchError YfinanceData :=
  match hist with
  | .error m => .error (.other m)
  | .ok [] => .error (.valueError ("No historical data found for " ++ ticker))
  | .ok (first :: rest) =>
    let last := (first :: rest).getLast (List.cons_ne_nil _ _)
    .ok { price_change_pct := pyRound2 ((last - first) / first * 100),
          current_price := pyRound2 last,
          forward_pe := info.forwardPE,
          trailing_pe := info.trailingPE,
          price_to_book := info.priceToBook,
          beta := info.beta,
          market_cap := info.marketCap,
          company_name := info.longName.getD ticker }

/-- The two completion-capability calls the orchestrator can make. -/
inductive LLMCall where
  | catalyst
  | risk
deriving DecidableEq

/-- An `HTTPException(status_code, detail)`. -/
structure HttpError where
  status : ℕ
  detail : String
deriving DecidableEq

/-- Everything external that one `/analyze` request can observe: configured
credentials, the quote API's answer, the two news sources' already-fetched
article lists, the social API's answer, and the two completion responses. -/
structure Env where
  anthropicKey : Option String
  twitterBearer : Option String
  hist : Except String (List ℚ)
  info : YfInfo
  googleNews : List Article
  reutersNews : List Article
  apiTweets : Option (List Tweet)
  catalystResp : Except String String
  riskResp : Except String String

/-- The JSON response body assembled at `app.py` lines 207-225
(`price_data` inlined). -/
structure AnalyzeResponse where
  ticker : String
  company_name : String
  days_analyzed : ℕ
  current_price : ℚ
  price_change_pct : ℚ
  forward_pe : Option ℚ
  trailing_pe : Option ℚ
  price_to_book : Option ℚ
  beta : Option ℚ
  market_cap : Option ℚ
  news : List Article
  tweets : List Tweet
  catalyst_thesis : List Bullet
  risk_thesis : List String
  risk_score : ℤ
deriving DecidableEq

/-- `analyze_ticker` (`app.py` lines 135-236), also returning the list of
completion-capability calls performed, in order.  A missing
`ANTHROPIC_API_KEY` raises `HTTPException(500, ...)` inside the `try`, which
the generic `except Exception` (line 234) re-wraps with `str(e)`
(`"500: ANTHROPIC_API_KEY not configured"`).  A `ValueError` (empty price
history) is mapped by the `except ValueError` (line 230) to a 404 naming the
ticker; any other fetch failure reaches `except Exception` and becomes a
500 with the original message. -/
def analyze_ticker (env : Env) (ticker : String) (days : ℕ) :
    Except HttpError AnalyzeResponse × List LLMCall :=
  match env.anthropicKey with
  | none =>
    (.error { status := 500,
              detail := "Internal server error: 500: ANTHROPIC_API_KEY not configured" },
     [])
  | some _ =>
    match fetch_yfinance_data ticker env.hist env.info with
    | .error (.valueError _) =>
      (.error { status := 404,
                detail := "Ticker '" ++ ticker ++ "' not found or has no data" },
       [])
    | .error (.other m) =>
      (.error { status := 500, detail := "Internal server error: " ++ m }, [])
    | .ok yf =>
      let all_news := mergeNews env.googleNews env.reutersNews
      let tweets :=
        match env.twitterBearer with
        | some _ => fetch_twitter_mentions 1 env.apiTweets
        | none => []
      let catalyst := generate_catalyst_thesis all_news env.catalystResp
      let risk := generate_risk_thesis env.riskResp
      let score := calculate_risk_score yf yf.price_change_pct
      (.ok { ticker := ticker.toUpper,
             company_name := yf.company_name,
             days_analyzed := days,
             current_price := yf.current_price,
             price_change_pct := yf.price_change_pct,
             forward_pe := yf.forward_pe,
             trailing_pe := yf.trailing_pe,
             price_to_book := yf.price_to_book,
             beta := yf.beta,
             market_cap := yf.market_cap,
             news := all_news.take 15,
             tweets := tweets.take 1,
             catalyst_thesis := catalyst,
             risk_thesis := risk,
             risk_score := score },
       [LLMCall.catalyst, LLMCall.risk])

/-! ## Helper lemmas: the lexicographic order and stable sorting -/

theorem charToNat_inj {a b : Char} (h : a.toNat = b.toNat) : a = b := by
  apply Char.eq_of_val_eq
  apply UInt32.eq_of_toBitVec_eq
  apply BitVec.eq_of_toNat_eq
  exact h

theorem lexLe_refl : ∀ l : List Char, lexLe l l = true
  | [] => rfl
  | a :: as => by simp [lexLe, lexLe_refl as]

theorem lexLe_total : ∀ as bs : List Char, lexLe as bs = true ∨ lexLe bs as = true
  | [], _ => Or.inl rfl
  | _ :: _, [] => Or.inr rfl
  | a :: as, b :: bs => by
    by_cases hab : a = b
    · subst hab
      simpa [lexLe] using lexLe_total as bs
    · have hba : ¬ b = a := fun h => hab h.symm
      have hnat : a.toNat ≠ b.toNat := fun h => hab (charToNat_inj h)
      simp only [lexLe, if_neg hab, if_neg hba, decide_eq_true_eq]
      omega

theorem lexLe_trans : ∀ as bs cs : List Char,
    lexLe as bs = true → lexLe bs cs = true → lexLe as cs = true
  | [], _, _, _, _ => rfl
  | _ :: _, [], _, h1, _ => absurd h1 (by simp [lexLe])
  | _ :: _, _ :: _, [], _, h2 => absurd h2 (by simp [lexLe])
  | a :: as, b :: bs, c :: cs, h1, h2 => by
    by_cases hab : a = b
    · subst hab
      simp only [lexLe, if_pos rfl] at h1
      by_cases hac : a = c
      · subst hac
        simp only [lexLe, if_pos rfl] at h2 ⊢
        exact lexLe_trans as bs cs h1 h2
      · simp only [lexLe, if_neg hac] at h2 ⊢
        exact h2
    · by_cases hbc : b = c
      · subst hbc
        simp only [lexLe, if_neg hab] at h1 ⊢
        exact h1
      · simp only [lexLe, if_neg hab, if_neg hbc, decide_eq_true_eq] at h1 h2
        by_cases hac : a = c
        · subst hac; omega
        · simp only [lexLe, if_neg hac, decide_eq_true_eq]
          omega

theorem newsRel_total : IsTotal Article newsRel :=
  ⟨fun x y => (lexLe_total y.published.data x.published.data).imp id id⟩

theorem newsRel_trans : IsTrans Article newsRel :=
  ⟨fun _ y _ h1 h2 => lexLe_trans _ y.published.data _ h2 h1⟩

theorem tweetRel_total : IsTotal Tweet tweetRel :=
  ⟨fun x y => le_total (engagement y) (engagement x)⟩

theorem tweetRel_trans : IsTrans Tweet tweetRel :=
  ⟨fun _ _ _ h1 h2 => le_trans h2 h1⟩

theorem orderedInsert_filter_key {α β : Type} (k : α → β) [DecidableEq β]
    (r : α → α → Prop) [DecidableRel r]
    (hkey : ∀ a b : α, ¬ r a b → k a ≠ k b) (a : α) (e : β) :
    ∀ l : List α,
      (List.orderedInsert r a l).filter (fun x => decide (k x = e)) =
        if k a = e then a :: l.filter (fun x => decide (k x = e))
        else l.filter (fun x => decide (k x = e))
  | [] => by
    by_cases h : k a = e <;> simp [List.orderedInsert, h]
  | b :: l => by
    by_cases hr : r a b
    · by_cases h : k a = e <;>
        simp [List.orderedInsert, if_pos hr, List.filter_cons, h]
    · have hne : k a ≠ k b := hkey a b hr
      have IH := orderedInsert_filter_key k r hkey a e l
      simp only [List.orderedInsert, if_neg hr]
      by_cases hb : k b = e
      · have hka : ¬ k a = e := fun h => hne (h.trans hb.symm)
        simp [List.filter_cons, hb, IH, hka]
      · by_cases ha : k a = e <;> simp [List.filter_cons, hb, IH, ha]

theorem insertionSort_filter_key {α β : Type} (k : α → β) [DecidableEq β]
    (r : α → α → Prop) [DecidableRel r]
    (hkey : ∀ a b : α, ¬ r a b → k a ≠ k b) (e : β) :
    ∀ l : List α,
      (List.insertionSort r l).filter (fun x => decide (k x = e)) =
        l.filter (fun x => decide (k x = e))
  | [] => rfl
  | a :: l => by
    simp only [List.insertionSort]
    rw [orderedInsert_filter_key k r hkey a e (List.insertionSort r l)]
    rw [insertionSort_filter_key k r hkey e l]
    by_cases h : k a = e <;> simp [List.filter_cons, h]

/-! ## Bridging lemmas for the decimal thresholds -/

theorem mkRat_five_two : (mkRat 5 2 : ℚ) = 5 / 2 := by
  rw [Rat.mkRat_eq_div]; norm_num

theorem mkRat_four_five : (mkRat 4 5 : ℚ) = 4 / 5 := by
  rw [Rat.mkRat_eq_div]; norm_num

/-! ## Claim C1 -/

/-- C1 counterexample: for the flat-history, no-valuation scenario the Risk
Scorer does **not** return the baseline 3: `abs(0.0) < 3` fires the −1
stability reward (app.py lines 88-89), so the result is 2. -/
theorem c1_flat_baseline_counterexample :
    calculate_risk_score emptyYf 0 = 2 ∧ calculate_risk_score emptyYf 0 ≠ 3 := by
  decide

/-- C1 (amended): for a flat price history (`price_change_pct = 0.0`) with no
valuation fields present, the Risk Scorer returns 2: the four valuation
factors each contribute 0, and the single adjustment that fires is the −1
stability reward for `|price_change_pct| < 3`. -/
theorem c1_flat_baseline_amended :
    calculate_risk_score emptyYf 0 = 2 ∧
    forwardPeAdj none none = 0 ∧
    ptbAdj none = 0 ∧
    betaAdj none = 0 ∧
    mcapAdj none = 0 ∧
    volAdj 0 = -1 := by
  decide

/-! ## Claim C2 -/

/-- C2: for every combination of valuation inputs (each optional field absent
or carrying any rational value) and every `price_change_pct`, the Risk
Scorer's output is an integer in `[1, 10]`: the final
`max(1, min(10, _))` clamp (app.py line 105) guarantees it. -/
theorem c2_risk_score_clamped (d : YfinanceData) (pct : ℚ) :
    1 ≤ calculate_risk_score d pct ∧ calculate_risk_score d pct ≤ 10 := by
  unfold calculate_risk_score
  exact ⟨le_max_left _ _, max_le (by norm_num) (min_le_left _ _)⟩

/-! ## Claim C8 -/

/-- C8 counterexample: a beta that is supplied and equal to `0.0` contributes
zero adjustment even though `0.0 < 0.8`, because `if beta:` (app.py line 75)
is Python truthiness and `0.0` is falsy.  With `price_change_pct = 10` no
other adjustment fires, so the score stays 3 where the claim predicts 2. -/
theorem c8_beta_zero_counterexample :
    (0 : ℚ) < mkRat 4 5 ∧
    betaAdj (some 0) = 0 ∧
    calculate_risk_score { emptyYf with beta := some 0 } 10 = 3 ∧
    calculate_risk_score { emptyYf with beta := some 0 } 10 ≠ 2 := by
  decide

/-- C8 (amended): for a supplied beta the adjustment is +2 if `beta > 2.5`,
+1 if `2.0 < beta ≤ 2.5`, −1 if `beta < 0.8` **and `beta ≠ 0.0`**, and 0
otherwise; an absent beta — or a supplied beta of exactly `0.0`, which is
falsy under `if beta:` — contributes zero. -/
theorem c8_beta_adjustment_amended (b : ℚ) :
    (b > mkRat 5 2 → betaAdj (some b) = 2) ∧
    (2 < b ∧ b ≤ mkRat 5 2 → betaAdj (some b) = 1) ∧
    (b < mkRat 4 5 ∧ b ≠ 0 → betaAdj (some b) = -1) ∧
    (mkRat 4 5 ≤ b ∧ b ≤ 2 → betaAdj (some b) = 0) ∧
    (b = 0 → betaAdj (some b) = 0) ∧
    betaAdj none = 0 := by
  simp only [betaAdj, mkRat_five_two, mkRat_four_five]
  refine ⟨?_, ?_, ?_, ?_, ?_, trivial⟩
  · intro h
    have hb0 : ¬ b = 0 := by intro h0; rw [h0] at h; norm_num at h
    rw [if_neg hb0, if_pos h]
  · rintro ⟨h1, h2⟩
    have hb0 : ¬ b = 0 := by intro h0; rw [h0] at h1; norm_num at h1
    have hn : ¬ b > 5 / 2 := not_lt.mpr h2
    rw [if_neg hb0, if_neg hn, if_pos h1]
  · rintro ⟨h1, h2⟩
    have hn1 : ¬ b > 5 / 2 := by intro h; norm_num at h h1; linarith
    have hn2 : ¬ b > 2 := by intro h; norm_num at h h1; linarith
    rw [if_neg h2, if_neg hn1, if_neg hn2, if_pos h1]
  · rintro ⟨h1, h2⟩
    have hb0 : ¬ b = 0 := by intro h0; rw [h0] at h1; norm_num at h1
    have hn1 : ¬ b > 5 / 2 := by intro h; linarith
    have hn2 : ¬ b > 2 := not_lt.mpr h2
    have hn3 : ¬ b < 4 / 5 := not_lt.mpr h1
    rw [if_neg hb0, if_neg hn1, if_neg hn2, if_neg hn3]
  · intro h0
    rw [if_pos h0]

/-- C8 amended-claim witness: beta = 3 lands in the `> 2.5` branch. -/
theorem c8_beta_adjustment_amended_witness : betaAdj (some 3) = 2 :=
  (c8_beta_adjustment_amended 3).1 (by decide)

/-! ## Claim C10 -/

/-- C10: the Risk Scorer is a pure function (so determinism is definitional
in this embedding) and its result reads only `forward_pe`, `price_to_book`,
`beta`, `market_cap` and `price_change_pct`: two inputs that agree on those
four optional fields yield the same score for the same `price_change_pct`,
whatever their `trailing_pe`, `current_price` and `company_name`. -/
theorem c10_score_depends_only_on_scored_fields (d₁ d₂ : YfinanceData) (pct : ℚ)
    (hpe : d₁.forward_pe = d₂.forward_pe)
    (hpb : d₁.price_to_book = d₂.price_to_book)
    (hb : d₁.beta = d₂.beta)
    (hmc : d₁.market_cap = d₂.market_cap) :
    calculate_risk_score d₁ pct = calculate_risk_score d₂ pct := by
  unfold calculate_risk_score
  rw [hpe, hpb, hb, hmc]

/-- C10 witness: changing only `trailing_pe`, `current_price` and
`company_name` leaves the score unchanged. -/
theorem c10_score_depends_only_on_scored_fields_witness :
    calculate_risk_score
      { emptyYf with trailing_pe := some 50, current_price := 123,
                     company_name := "Other" } 5 =
    calculate_risk_score emptyYf 5 :=
  c10_score_depends_only_on_scored_fields _ _ 5 rfl rfl rfl rfl

/-! ## Claim C7 -/

/-- C7: for every requested count and every list of posts the search API
returned, the fetcher (a) requests a page size of
`max(10, min(requested, 100))`, (b) returns exactly the first
`min(requested, available)` posts of the ranking, (c) the ranking is a
permutation of the API list, sorted descending by engagement
(likes + retweets), and (d) it is stable: posts of any fixed engagement
score keep their original relative order.  The final conjunct checks the
spec's `[5, 20, 5, 1]` example. -/
theorem c7_twitter_fetch_spec (mr : ℕ) (posts : List Tweet) :
    twitterPageSize mr = max 10 (min mr 100) ∧
    fetch_twitter_mentions mr (some posts) = (rankTweets posts).take mr ∧
    (fetch_twitter_mentions mr (some posts)).length = min mr posts.length ∧
    (rankTweets posts).Perm posts ∧
    List.Sorted tweetRel (rankTweets posts) ∧
    (∀ e : ℕ, (rankTweets posts).filter (fun t => decide (engagement t = e)) =
        posts.filter (fun t => decide (engagement t = e))) ∧
    rankTweets [⟨"a", "", 5, 0, "", ""⟩, ⟨"b", "", 20, 0, "", ""⟩,
                ⟨"c", "", 5, 0, "", ""⟩, ⟨"d", "", 1, 0, "", ""⟩] =
      [⟨"b", "", 20, 0, "", ""⟩, ⟨"a", "", 5, 0, "", ""⟩,
       ⟨"c", "", 5, 0, "", ""⟩, ⟨"d", "", 1, 0, "", ""⟩] := by
  refine ⟨rfl, rfl, ?_, List.perm_insertionSort tweetRel posts, ?_, ?_, by decide⟩
  · show ((rankTweets posts).take mr).length = min mr posts.length
    rw [List.length_take]
    congr 1
    exact (List.perm_insertionSort tweetRel posts).length_eq
  · haveI := tweetRel_total
    haveI := tweetRel_trans
    exact List.sorted_insertionSort tweetRel posts
  · intro e
    refine insertionSort_filter_key engagement tweetRel ?_ e posts
    intro a b h heq
    exact h (le_of_eq heq.symm)

/-! ## Claim C4 -/

/-- C4 counterexample: the merge sorts by the ISO-8601 `published` *string*
(app.py line 173), not by the chronological instant.  With one article
published 10:00 UTC (`+00:00`) and one published 09:00 at offset `-05:00`
(i.e. 14:00 UTC, chronologically later), string order puts the `10:00`
article first, so the merged list is not descending by instant. -/
theorem c4_merge_not_chronological_counterexample :
    mergeNews [⟨"t1", "l1", "2024-01-02T10:00:00+00:00", "SourceA"⟩]
      [⟨"t2", "l2", "2024-01-02T09:00:00-05:00", "Reuters"⟩] =
      [⟨"t1", "l1", "2024-01-02T10:00:00+00:00", "SourceA"⟩,
       ⟨"t2", "l2", "2024-01-02T09:00:00-05:00", "Reuters"⟩] ∧
    specChronInstant "2024-01-02T10:00:00+00:00" <
      specChronInstant "2024-01-02T09:00:00-05:00" ∧
    ¬ List.Sorted
        (fun x y : Article =>
          specChronInstant y.published ≤ specChronInstant x.published)
        (mergeNews [⟨"t1", "l1", "2024-01-02T10:00:00+00:00", "SourceA"⟩]
          [⟨"t2", "l2", "2024-01-02T09:00:00-05:00", "Reuters"⟩]) := by
  refine ⟨by decide, by decide, ?_⟩
  decide

/-- C4 (amended): the merged news list is a permutation of
`google ++ reuters`, sorted non-strictly descending by the ISO-8601
`published` string — the code's actual sort key — and the sort is stable
(articles with equal `published` strings keep their original relative
order).  String order agrees with chronological order only when all items
carry the same UTC offset; mixed offsets or duplicate timestamps make
"strictly descending by instant" unattainable, as the counterexample
shows. -/
theorem c4_merge_sorted_by_published_string (g r : List Article) :
    List.Sorted newsRel (mergeNews g r) ∧
    (mergeNews g r).Perm (g ++ r) ∧
    (∀ e : String, (mergeNews g r).filter (fun a => decide (a.published = e)) =
        (g ++ r).filter (fun a => decide (a.published = e))) := by
  refine ⟨?_, List.perm_insertionSort _ _, ?_⟩
  · haveI := newsRel_total
    haveI := newsRel_trans
    exact List.sorted_insertionSort newsRel _
  · intro e
    refine insertionSort_filter_key (fun a : Article => a.published) newsRel ?_ e (g ++ r)
    intro a b h heq
    have heq2 : a.published = b.published := heq
    apply h
    show strLe b.published a.published = true
    rw [heq2]
    exact lexLe_refl _

/-! ## Claim C6 -/

/-- C6: for every failure message `e` of the underlying completion call,
both thesis generators return normally instead of raising: the catalyst
generator returns exactly one bullet whose text reports the error and whose
source list is empty (`llm_prompts.py` lines 120-122), and the risk
generator returns exactly one explanatory string bullet (lines 196-198). -/
theorem c6_generators_fail_soft (e : String) (arts : List Article) :
    generate_catalyst_thesis arts (.error e) =
      [{ text := "Error generating analysis: " ++ e, sources := [] }] ∧
    (generate_catalyst_thesis arts (.error e)).length = 1 ∧
    generate_risk_thesis (.error e) = ["Error generating analysis: " ++ e] ∧
    (generate_risk_thesis (.error e)).length = 1 :=
  ⟨rfl, rfl, rfl, rfl⟩

/-! ## Claim C3 -/

/-- The citation-resolution loop keeps exactly the citations `n` with
`1 ≤ n ≤ min(10, len(news_articles))` and maps each to the `n`-th (1-based)
article of the truncated 10-item list. -/
theorem buildSources_eq (arts : List Article) : ∀ cs : List ℕ,
    buildSources arts cs =
      (cs.filter (fun n => decide (1 ≤ n ∧ n ≤ min 10 arts.length))).map
        (fun n => sourceOf ((arts.take 10).getD (n - 1) defaultArticle))
  | [] => rfl
  | n :: ns => by
    simp only [buildSources]
    by_cases hg : (0 : ℤ) ≤ (n : ℤ) - 1 ∧ (n : ℤ) - 1 < ((arts.take 10).length : ℤ)
    · have hlen : (arts.take 10).length = min 10 arts.length := List.length_take 10 arts
      have hn : 1 ≤ n ∧ n ≤ min 10 arts.length := by
        refine ⟨by omega, ?_⟩
        have h2 := hg.2
        rw [hlen] at h2
        omega
      have hidx : ((n : ℤ) - 1).toNat = n - 1 := by omega
      have hlt : n - 1 < 10 := by omega
      have hgetD : arts.getD (n - 1) defaultArticle =
          (arts.take 10).getD (n - 1) defaultArticle := by
        simp [List.getD_eq_getElem?_getD, List.getElem?_take, hlt]
      rw [if_pos hg, hidx, hgetD, buildSources_eq arts ns]
      simp only [List.filter_cons]
      rw [decide_eq_true hn]
      rfl
    · have hn : ¬ (1 ≤ n ∧ n ≤ min 10 arts.length) := by
        intro hcon
        apply hg
        refine ⟨by omega, ?_⟩
        rw [List.length_take 10 arts]
        omega
      rw [if_neg hg, buildSources_eq arts ns]
      simp only [List.filter_cons]
      rw [decide_eq_false hn]
      rfl

/-- C3: (1) in the sources attached to a bullet, a citation token `[n]`
resolves to the `n`-th article (1-based) of the truncated 10-item list if
and only if `1 ≤ n ≤ min(10, number of supplied articles)`; every other `n`
(including 0, whose `idx = -1` fails the `0 <= idx` guard) is silently
dropped; (2) a kept line with nonempty cleaned text always produces its
bullet, whose source list is exactly the resolution of its citations — empty
when none resolves.  Parsing never raises: every function involved is total
in this embedding. -/
theorem c3_citation_resolution (arts : List Article) (cs : List ℕ)
    (raw : List Char)
    (hkept : isKeptLine (pyStrip raw) = true)
    (hclean : (cleanLine (pyStrip raw)).isEmpty = false) :
    buildSources arts cs =
      (cs.filter (fun n => decide (1 ≤ n ∧ n ≤ min 10 arts.length))).map
        (fun n => sourceOf ((arts.take 10).getD (n - 1) defaultArticle)) ∧
    processCatalystLine arts raw =
      some { text := ⟨pyStrip (removeCitations (cleanLine (pyStrip raw)))⟩,
             sources := buildSources arts (findCitations (cleanLine (pyStrip raw))) } := by
  refine ⟨buildSources_eq arts cs, ?_⟩
  simp only [processCatalystLine]
  rw [hkept, hclean]
  simp

/-- C3 witness: two supplied articles, a model line citing `[2]` (in range)
and `[7]` (out of range, silently dropped): the bullet is produced with the
citation tokens removed from its text and exactly the second article as its
source. -/
theorem c3_citation_resolution_witness :
    processCatalystLine
      [⟨"A", "lA", "p1", "S1"⟩, ⟨"B", "lB", "p2", "S2"⟩]
      ("- Up on earnings [2][7]").data =
      some { text := "Up on earnings", sources := [⟨"B", "lB", "S2"⟩] } := by
  have h := (c3_citation_resolution
    [⟨"A", "lA", "p1", "S1"⟩, ⟨"B", "lB", "p2", "S2"⟩] [2, 7]
    ("- Up on earnings [2][7]").data (by decide) (by decide)).2
  rw [h]
  decide

/-! ## Claim C9 -/

/-- C9 counterexample: in `fetch_reuters_news` the `try/except` wraps the
whole entry loop of a feed (`data_fetcher.py` lines 116-143), so when the
second entry's timestamp is unparseable the feed does **not** contribute
zero items: the first (already appended) entry survives, and the third,
perfectly parseable entry is dropped. -/
theorem c9_reuters_midfeed_failure_counterexample :
    fetch_reuters_news
      (fun s => if s = "d1" then some 100 else if s = "d3" then some 50 else none)
      (fun _ => "T") "acme" "ACME Corp"
      [some [⟨"ACME rises", none, some "d1", "l1", none⟩,
             ⟨"ACME alert", none, some "bad", "l2", none⟩,
             ⟨"ACME falls", none, some "d3", "l3", none⟩]] =
      [⟨"ACME rises", "l1", "T", "Reuters"⟩] ∧
    [⟨"ACME rises", "l1", "T", "Reuters"⟩] ≠ ([] : List Article) := by
  decide

/-- C9 (amended): (1) a curated feed whose fetch/parse fails as a whole
contributes zero items and leaves the other feeds' contributions unchanged;
(2) an entry-level timestamp parse failure inside a curated feed aborts that
feed at the failing entry — entries of the same feed already appended are
kept, the failing entry and all later entries of that feed are dropped;
(3) in the broad-query source an entry with a missing or unparseable
timestamp is skipped individually, leaving the remaining entries unaffected.
Aggregation never raises: both fetchers are total functions. -/
theorem c9_feed_failure_amended :
    (∀ (dp : String → Option ℤ) (fmt : ℤ → String) (t c : String)
        (feeds1 feeds2 : List (Option (List FeedEntry))),
        fetch_reuters_news dp fmt t c (feeds1 ++ none :: feeds2) =
          fetch_reuters_news dp fmt t c (feeds1 ++ feeds2)) ∧
    (∀ (dp : String → Option ℤ) (fmt : ℤ → String) (t c : String)
        (e : FeedEntry) (es : List FeedEntry) (acc : List Article) (s : String),
        entryMatches t c e = true → e.published = some s → dp s = none →
        processReutersFeed dp fmt t c (e :: es) acc = acc) ∧
    (∀ (dp : String → Option ℤ) (fmt : ℤ → String) (cutoff : ℤ)
        (e : FeedEntry) (es : List FeedEntry),
        (e.published = none ∨ ∃ s, e.published = some s ∧ dp s = none) →
        fetch_google_news dp fmt cutoff (e :: es) =
          fetch_google_news dp fmt cutoff es) := by
  refine ⟨?_, ?_, ?_⟩
  · intro dp fmt t c feeds1 feeds2
    simp only [fetch_reuters_news, List.foldl_append, List.foldl_cons]
  · intro dp fmt t c e es acc s hm hp hd
    simp [processReutersFeed, hm, hp, hd]
  · intro dp fmt cutoff e es h
    rcases h with h | ⟨s, hp, hd⟩
    · simp [fetch_google_news, h]
    · simp [fetch_google_news, hp, hd]

/-- C9 amended-claim witness: a matching entry with an unparseable timestamp
aborts its feed, keeping what was already accumulated. -/
theorem c9_feed_failure_amended_witness :
    processReutersFeed (fun _ => none) (fun _ => "T") "acme" "ACME"
      [⟨"ACME x", none, some "bad", "l", none⟩]
      [⟨"kept", "lk", "p", "Reuters"⟩] =
      [⟨"kept", "lk", "p", "Reuters"⟩] :=
  c9_feed_failure_amended.2.1 (fun _ => none) (fun _ => "T") "acme" "ACME"
    ⟨"ACME x", none, some "bad", "l", none⟩ [] [⟨"kept", "lk", "p", "Reuters"⟩]
    "bad" (by decide) rfl rfl

/-! ## Claim C5 -/

/-- C5: when the quote fetch returns an empty price history, (1) the fetcher
fails with the `ValueError`-class error `"No historical data found for
{ticker}"` — a constructor distinct from the `.other` generic upstream
failure; (2) the orchestrator maps it to a 404 naming the ticker and
performs **no** completion-capability call (the trace is empty); (3) by
contrast a generic upstream failure is mapped to a 500 carrying the original
message, so the two are distinguishable end to end. -/
theorem c5_empty_history_maps_to_404 (env : Env) (ticker : String) (days : ℕ)
    (k : String) (hk : env.anthropicKey = some k) (hh : env.hist = .ok []) :
    fetch_yfinance_data ticker env.hist env.info =
      .error (.valueError ("No historical data found for " ++ ticker)) ∧
    analyze_ticker env ticker days =
      (.error { status := 404,
                detail := "Ticker '" ++ ticker ++ "' not found or has no data" },
       []) ∧
    (∀ (env₂ : Env) (k₂ m : String),
        env₂.anthropicKey = some k₂ → env₂.hist = .error m →
        analyze_ticker env₂ ticker days =
          (.error { status := 500, detail := "Internal server error: " ++ m },
           [])) := by
  have h1 : fetch_yfinance_data ticker env.hist env.info =
      .error (.valueError ("No historical data found for " ++ ticker)) := by
    rw [hh]; rfl
  refine ⟨h1, ?_, ?_⟩
  · simp only [analyze_ticker, hk, h1]
  · intro env₂ k₂ m hk₂ hm
    have h2 : fetch_yfinance_data ticker env₂.hist env₂.info =
        .error (.other m) := by rw [hm]; rfl
    simp only [analyze_ticker, hk₂, h2]

/-- C5 witness: a concrete environment whose quote API returned an empty
history for ticker `"ZZZZ"`. -/
theorem c5_empty_history_maps_to_404_witness :
    analyze_ticker
      { anthropicKey := some "key", twitterBearer := none, hist := .ok [],
        info := ⟨none, none, none, none, none, none⟩, googleNews := [],
        reutersNews := [], apiTweets := none, catalystResp := .ok "",
        riskResp := .ok "" } "ZZZZ" 7 =
      (.error { status := 404,
                detail := "Ticker '" ++ "ZZZZ" ++ "' not found or has no data" },
       []) :=
  (c5_empty_history_maps_to_404
    { anthropicKey := some "key", twitterBearer := none, hist := .ok [],
      info := ⟨none, none, none, none, none, none⟩, googleNews := [],
      reutersNews := [], apiTweets := none, catalystResp := .ok "",
      riskResp := .ok "" } "ZZZZ" 7 "key" rfl rfl).2.1
